import Mathlib

/-!
Shallow embedding of `google/resource_compute_forwarding_rule.go` from
`terraform-provider-google`: the Terraform resource adapter for Google
Compute forwarding rules.  The file defines the resource schema and four
CRUD handlers (`resourceComputeForwardingRuleCreate` / `Read` / `Update` /
`Delete`).  Helper functions that live elsewhere in the repository
(`ParseNetworkFieldValue`, `ParseSubnetworkFieldValue`, `getRegion`,
`getProject`, `ConvertSelfLinkToV1`, `computeOperationWait`,
`computeSharedOperationWait`, `handleNotFoundError`) and the Google Cloud
API clients are modelled as abstract components of a `Config` environment;
the handlers are state-passing functions that also record the trace of API
calls they issue.
-/

namespace ForwardingRuleAdapter

/-- The fields of `computeBeta.ForwardingRule` that this adapter reads or
writes (all other fields of the Go struct are never touched by this file). -/
structure ForwardingRule where
  BackendService : String := ""
  IPAddress : String := ""
  IPProtocol : String := ""
  Description : String := ""
  LoadBalancingScheme : String := ""
  Name : String := ""
  Network : String := ""
  NetworkTier : String := ""
  PortRange : String := ""
  Ports : List String := []
  Subnetwork : String := ""
  Target : String := ""
  SelfLink : String := ""
deriving Repr, DecidableEq

/-- `compute.TargetReference`: carries only the target self-link. -/
structure TargetReference where
  Target : String
deriving Repr, DecidableEq

/-- An opaque handle for a long-running Google Cloud operation. -/
structure Operation where
  opId : Nat
deriving Repr, DecidableEq

/-- Result of `ParseNetworkFieldValue` / `ParseSubnetworkFieldValue`; the
adapter only ever calls its `RelativeLink()` method, modelled as the field
`relativeLink`. -/
structure NetworkFieldValue where
  relativeLink : String
deriving Repr, DecidableEq

/-- The configuration/state attributes declared in the resource schema.
`ports` is a `schema.TypeSet` of strings; it is modelled by the list of its
elements (what `d.Get("ports").(*schema.Set).List()` returns). -/
structure Attrs where
  name : String := ""
  target : String := ""
  backend_service : String := ""
  description : String := ""
  ip_address : String := ""
  ip_protocol : String := ""
  load_balancing_scheme : String := ""
  network : String := ""
  network_tier : String := ""
  port_range : String := ""
  ports : List String := []
  project : String := ""
  region : String := ""
  self_link : String := ""
  subnetwork : String := ""
deriving Repr, DecidableEq

/-- The SDK `*schema.ResourceData` as this adapter uses it: the attribute
map (`d.Get`/`d.Set`), the resource id (`d.Id`/`d.SetId`), the SDK's answer
to `d.HasChange("target")`, and the partial-state bookkeeping touched by
`d.Partial` / `d.SetPartial`. -/
structure ResourceData where
  attrs : Attrs
  id : String := ""
  hasChangeTarget : Bool := false
  partialMode : Bool := false
  partialKeys : List String := []
deriving Repr, DecidableEq

/-- One Google Cloud Compute API call issued by a handler, with its
arguments. -/
inductive ApiCall where
  | insert (project region : String) (frule : ForwardingRule)
  | setTarget (project region ruleId : String) (ref : TargetReference)
  | get (project region ruleId : String)
  | delete (project region ruleId : String)
deriving Repr, DecidableEq

/-- `true` for the calls that mutate remote state (`Insert`, `SetTarget`,
`Delete`); `false` for the read-only `Get`. -/
def ApiCall.isMutating : ApiCall → Bool
  | .get _ _ _ => false
  | _ => true

/-- The environment a handler runs against: the `*Config` receiver plus the
repository helpers defined outside this file and the Google API clients,
all abstract.  `isNotFoundError` is the test `handleNotFoundError` applies
to a `Get` error. -/
structure Config where
  ParseNetworkFieldValue : String → ResourceData → Except String NetworkFieldValue
  ParseSubnetworkFieldValue : String → ResourceData → Except String NetworkFieldValue
  getRegion : ResourceData → Except String String
  getProject : ResourceData → Except String String
  ConvertSelfLinkToV1 : String → String
  ForwardingRulesInsert : String → String → ForwardingRule → Except String Operation
  ForwardingRulesSetTarget : String → String → String → TargetReference → Except String Operation
  ForwardingRulesGet : String → String → String → Except String ForwardingRule
  ForwardingRulesDelete : String → String → String → Except String Operation
  computeSharedOperationWait : Operation → String → String → Except String Unit
  computeOperationWait : Operation → String → String → Except String Unit
  isNotFoundError : String → Bool

/-- Outcome of running one handler: the API calls issued (in order), the
final `ResourceData`, and the returned error (`none` = Go `nil`). -/
structure RunResult where
  calls : List ApiCall
  state : ResourceData
  error : Option String
deriving Repr, DecidableEq

/-- Modelled from the spec: `handleNotFoundError` is defined elsewhere in
the repository; on a not-found (404) error it clears the resource id and
returns nil, otherwise it wraps and propagates the error. -/
def handleNotFoundError (cfg : Config) (e : String) (d : ResourceData)
    (resource : String) : ResourceData × Option String :=
  if cfg.isNotFoundError e then ({ d with id := "" }, none)
  else (d, some ("Error reading " ++ resource ++ ": " ++ e))

/-- `resourceComputeForwardingRuleRead`: fetch the rule and copy every
remote field back into the local attributes. -/
def resourceComputeForwardingRuleRead (cfg : Config) (d : ResourceData) : RunResult :=
  match cfg.getRegion d with
  | .error e => ⟨[], d, some e⟩
  | .ok region =>
    match cfg.getProject d with
    | .error e => ⟨[], d, some e⟩
    | .ok project =>
      match cfg.ForwardingRulesGet project region d.id with
      | .error e =>
        let r := handleNotFoundError cfg e d ("Forwarding Rule \"" ++ d.attrs.name ++ "\"")
        ⟨[ApiCall.get project region d.id], r.1, r.2⟩
      | .ok frule =>
        let a := d.attrs
        let a := { a with name := frule.Name }
        let a := { a with target := frule.Target }
        let a := { a with backend_service := cfg.ConvertSelfLinkToV1 frule.BackendService }
        let a := { a with description := frule.Description }
        let a := { a with load_balancing_scheme := frule.LoadBalancingScheme }
        let a := { a with network := frule.Network }
        let a := { a with network_tier := frule.NetworkTier }
        let a := { a with port_range := frule.PortRange }
        let a := { a with ports := frule.Ports }
        let a := { a with project := project }
        let a := { a with region := region }
        let a := { a with subnetwork := frule.Subnetwork }
        let a := { a with ip_address := frule.IPAddress }
        let a := { a with ip_protocol := frule.IPProtocol }
        let a := { a with self_link := cfg.ConvertSelfLinkToV1 frule.SelfLink }
        ⟨[ApiCall.get project region d.id], { d with attrs := a }, none⟩

/-- The `computeBeta.ForwardingRule` literal built by the create handler
from the configuration, given the parsed network and subnetwork values. -/
def builtForwardingRule (cfg : Config) (d : ResourceData)
    (network subnetwork : NetworkFieldValue) : ForwardingRule :=
  { BackendService := d.attrs.backend_service
    IPAddress := d.attrs.ip_address
    IPProtocol := d.attrs.ip_protocol
    Description := d.attrs.description
    LoadBalancingScheme := d.attrs.load_balancing_scheme
    Name := d.attrs.name
    Network := network.relativeLink
    NetworkTier := d.attrs.network_tier
    PortRange := d.attrs.port_range
    Ports := (d.attrs.ports).foldl (fun acc v => acc ++ [v]) []
    Subnetwork := subnetwork.relativeLink
    Target := cfg.ConvertSelfLinkToV1 d.attrs.target
    SelfLink := "" }

/-- `resourceComputeForwardingRuleCreate`: build the rule from the
configuration, call `Insert`, store the id, wait, then re-read. -/
def resourceComputeForwardingRuleCreate (cfg : Config) (d : ResourceData) : RunResult :=
  match cfg.ParseNetworkFieldValue d.attrs.network d with
  | .error e => ⟨[], d, some e⟩
  | .ok network =>
  match cfg.ParseSubnetworkFieldValue d.attrs.subnetwork d with
  | .error e => ⟨[], d, some e⟩
  | .ok subnetwork =>
  match cfg.getRegion d with
  | .error e => ⟨[], d, some e⟩
  | .ok region =>
  match cfg.getProject d with
  | .error e => ⟨[], d, some e⟩
  | .ok project =>
  let frule := builtForwardingRule cfg d network subnetwork
  match cfg.ForwardingRulesInsert project region frule with
  | .error e =>
      ⟨[ApiCall.insert project region frule], d,
        some ("Error creating ForwardingRule: " ++ e)⟩
  | .ok op =>
    let d1 := { d with id := frule.Name }
    match cfg.computeSharedOperationWait op project "Creating Fowarding Rule" with
    | .error e => ⟨[ApiCall.insert project region frule], d1, some e⟩
    | .ok _ =>
      let r := resourceComputeForwardingRuleRead cfg d1
      ⟨ApiCall.insert project region frule :: r.calls, r.state, r.error⟩

/-- `resourceComputeForwardingRuleUpdate`: issue `SetTarget` only when the
target attribute changed, then re-read. -/
def resourceComputeForwardingRuleUpdate (cfg : Config) (d : ResourceData) : RunResult :=
  match cfg.getRegion d with
  | .error e => ⟨[], d, some e⟩
  | .ok region =>
  match cfg.getProject d with
  | .error e => ⟨[], d, some e⟩
  | .ok project =>
  let d1 := { d with partialMode := true }
  if d1.hasChangeTarget then
    let target_name := d1.attrs.target
    let target_ref : TargetReference := ⟨target_name⟩
    match cfg.ForwardingRulesSetTarget project region d1.id target_ref with
    | .error e =>
        ⟨[ApiCall.setTarget project region d1.id target_ref], d1,
          some ("Error updating target: " ++ e)⟩
    | .ok op =>
      match cfg.computeOperationWait op project "Updating Forwarding Rule" with
      | .error e => ⟨[ApiCall.setTarget project region d1.id target_ref], d1, some e⟩
      | .ok _ =>
        let d2 := { d1 with partialKeys := d1.partialKeys ++ ["target"] }
        let d3 := { d2 with partialMode := false }
        let r := resourceComputeForwardingRuleRead cfg d3
        ⟨ApiCall.setTarget project region d1.id target_ref :: r.calls, r.state, r.error⟩
  else
    let d3 := { d1 with partialMode := false }
    resourceComputeForwardingRuleRead cfg d3

/-- `resourceComputeForwardingRuleDelete`: call `Delete`, wait, and clear
the resource id on full success. -/
def resourceComputeForwardingRuleDelete (cfg : Config) (d : ResourceData) : RunResult :=
  match cfg.getRegion d with
  | .error e => ⟨[], d, some e⟩
  | .ok region =>
  match cfg.getProject d with
  | .error e => ⟨[], d, some e⟩
  | .ok project =>
  match cfg.ForwardingRulesDelete project region d.id with
  | .error e =>
      ⟨[ApiCall.delete project region d.id], d,
        some ("Error deleting ForwardingRule: " ++ e)⟩
  | .ok op =>
    match cfg.computeOperationWait op project "Deleting Forwarding Rule" with
    | .error e => ⟨[ApiCall.delete project region d.id], d, some e⟩
    | .ok _ => ⟨[ApiCall.delete project region d.id], { d with id := "" }, none⟩

/-- The two `schema.ValueType`s used in this file. -/
inductive SchemaValueType where
  | TypeString
  | TypeSet
deriving Repr, DecidableEq

/-- One `*schema.Schema` entry as declared in this file.  Function-valued
fields (`DiffSuppressFunc`, `ValidateFunc`, `Set`) are recorded by the name
of the function installed; `MaxItems` keeps Go's zero value `0` when
absent. -/
structure SchemaEntry where
  type_ : SchemaValueType
  Required : Bool := false
  Optional : Bool := false
  ForceNew : Bool := false
  Computed : Bool := false
  MaxItems : Nat := 0
  Default : Option String := none
  Elem : Option SchemaValueType := none
  DiffSuppressFunc : Option String := none
  ValidateFunc : Option (List String) := none
  SetFunc : Option String := none
deriving Repr, DecidableEq

/-- `*schema.ResourceImporter`; `State` records the installed importer
function by name. -/
structure ResourceImporter where
  State : String
deriving Repr, DecidableEq

/-- `*schema.Resource`: the four lifecycle handlers, the importer, and the
schema map (as an association list). -/
structure Resource where
  Create : Config → ResourceData → RunResult
  Read : Config → ResourceData → RunResult
  Update : Config → ResourceData → RunResult
  Delete : Config → ResourceData → RunResult
  Importer : ResourceImporter
  Schema : List (String × SchemaEntry)

/-- `resourceComputeForwardingRule`: the resource definition returned to
the provider. -/
def resourceComputeForwardingRule : Resource :=
  { Create := resourceComputeForwardingRuleCreate
    Read := resourceComputeForwardingRuleRead
    Update := resourceComputeForwardingRuleUpdate
    Delete := resourceComputeForwardingRuleDelete
    Importer := { State := "ImportStatePassthrough" }
    Schema :=
      [ ("name", { type_ := .TypeString, Required := true, ForceNew := true }),
        ("target", { type_ := .TypeString, Optional := true,
                     DiffSuppressFunc := some "compareSelfLinkRelativePaths" }),
        ("backend_service", { type_ := .TypeString, Optional := true, ForceNew := true }),
        ("description", { type_ := .TypeString, Optional := true, ForceNew := true }),
        ("ip_address", { type_ := .TypeString, Optional := true, ForceNew := true,
                         Computed := true }),
        ("ip_protocol", { type_ := .TypeString, Optional := true, ForceNew := true,
                          Computed := true,
                          DiffSuppressFunc := some "caseDiffSuppress" }),
        ("load_balancing_scheme", { type_ := .TypeString, Optional := true,
                                    ForceNew := true, Default := some "EXTERNAL" }),
        ("network", { type_ := .TypeString, Optional := true, ForceNew := true,
                      Computed := true,
                      DiffSuppressFunc := some "compareSelfLinkOrResourceName" }),
        ("network_tier", { type_ := .TypeString, Optional := true, ForceNew := true,
                           Computed := true,
                           ValidateFunc := some ["PREMIUM", "STANDARD"] }),
        ("port_range", { type_ := .TypeString, Optional := true, ForceNew := true,
                         DiffSuppressFunc := some "portRangeDiffSuppress" }),
        ("ports", { type_ := .TypeSet, Elem := some .TypeString, Optional := true,
                    ForceNew := true, SetFunc := some "HashString", MaxItems := 5 }),
        ("project", { type_ := .TypeString, Optional := true, ForceNew := true,
                      Computed := true }),
        ("region", { type_ := .TypeString, Optional := true, ForceNew := true,
                     Computed := true }),
        ("self_link", { type_ := .TypeString, Computed := true }),
        ("subnetwork", { type_ := .TypeString, Optional := true, ForceNew := true,
                         Computed := true,
                         DiffSuppressFunc := some "compareSelfLinkOrResourceName" }) ] }

/-- The schema entry declared for the `ports` attribute. -/
def portsEntry : SchemaEntry :=
  { type_ := .TypeSet, Elem := some .TypeString, Optional := true,
    ForceNew := true, SetFunc := some "HashString", MaxItems := 5 }

/-- Modelled from the spec: the plugin SDK that owns configuration
validation lives outside this file; it rejects any configuration whose
`ports` set has more elements than the schema's `MaxItems`, so every
accepted configuration satisfies this bound. -/
def acceptedPortsConfiguration (d : ResourceData) : Prop :=
  d.attrs.ports.length ≤
    ((List.lookup "ports" resourceComputeForwardingRule.Schema).map
      (fun s => s.MaxItems)).getD 0

instance (d : ResourceData) : Decidable (acceptedPortsConfiguration d) := by
  unfold acceptedPortsConfiguration; infer_instance

/-- A concrete forwarding rule as returned by a `Get` call, for witnesses. -/
def testFrule : ForwardingRule :=
  { BackendService := "https://www.googleapis.com/compute/beta/projects/p/regions/r/backendServices/bs"
    IPAddress := "10.0.0.7"
    IPProtocol := "TCP"
    Description := "remote description"
    LoadBalancingScheme := "INTERNAL"
    Name := "my-rule"
    Network := "https://www.googleapis.com/compute/v1/projects/p/global/networks/net"
    NetworkTier := "PREMIUM"
    PortRange := "80-90"
    Ports := ["80", "443"]
    Subnetwork := "https://www.googleapis.com/compute/v1/projects/p/regions/r/subnetworks/sub"
    Target := "https://www.googleapis.com/compute/v1/projects/p/regions/r/targetPools/tp"
    SelfLink := "https://www.googleapis.com/compute/beta/projects/p/regions/r/forwardingRules/my-rule" }

/-- A concrete configuration block, for witnesses. -/
def testAttrs : Attrs :=
  { name := "my-rule"
    target := "tpool"
    backend_service := "bs"
    description := "desc"
    ip_address := "10.0.0.7"
    ip_protocol := "TCP"
    load_balancing_scheme := "EXTERNAL"
    network := "net"
    network_tier := "PREMIUM"
    port_range := "80-90"
    ports := ["80", "443"]
    project := "proj"
    region := "us-central1"
    self_link := ""
    subnetwork := "sub" }

/-- A concrete resource-data value whose target attribute has changed. -/
def testD : ResourceData :=
  { attrs := testAttrs, id := "my-rule", hasChangeTarget := true }

/-- A concrete resource-data value whose target attribute is unchanged. -/
def testDNoChange : ResourceData :=
  { attrs := testAttrs, id := "my-rule", hasChangeTarget := false }

/-- A concrete environment in which every helper and API call succeeds,
for witnesses. -/
def testConfig : Config :=
  { ParseNetworkFieldValue := fun s _ => .ok ⟨"projects/proj/global/networks/" ++ s⟩
    ParseSubnetworkFieldValue := fun s _ =>
      .ok ⟨"projects/proj/regions/us-central1/subnetworks/" ++ s⟩
    getRegion := fun d => .ok d.attrs.region
    getProject := fun d => .ok d.attrs.project
    ConvertSelfLinkToV1 := fun s => "v1:" ++ s
    ForwardingRulesInsert := fun _ _ _ => .ok ⟨1⟩
    ForwardingRulesSetTarget := fun _ _ _ _ => .ok ⟨2⟩
    ForwardingRulesGet := fun _ _ _ => .ok testFrule
    ForwardingRulesDelete := fun _ _ _ => .ok ⟨3⟩
    computeSharedOperationWait := fun _ _ _ => .ok ()
    computeOperationWait := fun _ _ _ => .ok ()
    isNotFoundError := fun _ => false }

/-- The test environment with a failing `Insert` call. -/
def testConfigInsertFails : Config :=
  { testConfig with ForwardingRulesInsert := fun _ _ _ => .error "insert failed" }

/-- The test environment in which the shared operation wait fails. -/
def testConfigWaitFails : Config :=
  { testConfig with computeSharedOperationWait := fun _ _ _ => .error "wait failed" }

/-- The test environment with a failing `Delete` call. -/
def testConfigDeleteFails : Config :=
  { testConfig with ForwardingRulesDelete := fun _ _ _ => .error "delete failed" }

/-! Helper lemmas shared by several claim proofs. -/

/-- The element-copying loop of the create handler is the identity on the
list of set elements. -/
theorem foldl_pushback (l acc : List String) :
    l.foldl (fun acc v => acc ++ [v]) acc = acc ++ l := by
  induction l generalizing acc with
  | nil => simp
  | cons x xs ih => simp [List.foldl, ih]

/-- The built insert request, with the ports loop evaluated away. -/
theorem builtForwardingRule_eq (cfg : Config) (d : ResourceData)
    (nw sn : NetworkFieldValue) :
    builtForwardingRule cfg d nw sn =
      { BackendService := d.attrs.backend_service
        IPAddress := d.attrs.ip_address
        IPProtocol := d.attrs.ip_protocol
        Description := d.attrs.description
        LoadBalancingScheme := d.attrs.load_balancing_scheme
        Name := d.attrs.name
        Network := nw.relativeLink
        NetworkTier := d.attrs.network_tier
        PortRange := d.attrs.port_range
        Ports := d.attrs.ports
        Subnetwork := sn.relativeLink
        Target := cfg.ConvertSelfLinkToV1 d.attrs.target
        SelfLink := "" } := by
  unfold builtForwardingRule
  rw [foldl_pushback]
  simp

/-- The read handler only ever issues `Get` calls. -/
theorem read_calls_are_get (cfg : Config) (d : ResourceData) :
    ∀ c ∈ (resourceComputeForwardingRuleRead cfg d).calls,
      ∃ p r i, c = ApiCall.get p r i := by
  intro c hc
  unfold resourceComputeForwardingRuleRead at hc
  cases h1 : cfg.getRegion d with
  | error e => simp only [h1] at hc; simp at hc
  | ok region =>
    simp only [h1] at hc
    cases h2 : cfg.getProject d with
    | error e => simp only [h2] at hc; simp at hc
    | ok project =>
      simp only [h2] at hc
      cases h3 : cfg.ForwardingRulesGet project region d.id with
      | error e =>
        simp only [h3] at hc
        simp at hc
        exact ⟨project, region, d.id, hc⟩
      | ok frule =>
        simp only [h3] at hc
        simp at hc
        exact ⟨project, region, d.id, hc⟩

/-! The claim theorems. -/

/-- C1: the resource definition returned by `resourceComputeForwardingRule`
binds exactly the four lifecycle handlers Create, Read, Update, Delete to
`resourceComputeForwardingRuleCreate` / `Read` / `Update` / `Delete`, and
installs the passthrough importer. -/
theorem resource_binds_crud_handlers :
    resourceComputeForwardingRule.Create = resourceComputeForwardingRuleCreate ∧
    resourceComputeForwardingRule.Read = resourceComputeForwardingRuleRead ∧
    resourceComputeForwardingRule.Update = resourceComputeForwardingRuleUpdate ∧
    resourceComputeForwardingRule.Delete = resourceComputeForwardingRuleDelete ∧
    resourceComputeForwardingRule.Importer = ⟨"ImportStatePassthrough"⟩ :=
  ⟨rfl, rfl, rfl, rfl, rfl⟩

/-- C2: whenever the create handler reaches the `Insert` call (network and
subnetwork parse, region and project resolution all succeed), the first API
call it issues is `Insert` with the `ForwardingRule` whose fields are the
corresponding configuration attributes, the parsed relative links, the
elements of the ports set, and the target converted to a v1 self-link. -/
theorem create_insert_request_fields (cfg : Config) (d : ResourceData)
    (nw sn : NetworkFieldValue) (region project : String)
    (h1 : cfg.ParseNetworkFieldValue d.attrs.network d = .ok nw)
    (h2 : cfg.ParseSubnetworkFieldValue d.attrs.subnetwork d = .ok sn)
    (h3 : cfg.getRegion d = .ok region)
    (h4 : cfg.getProject d = .ok project) :
    (resourceComputeForwardingRuleCreate cfg d).calls.head? =
      some (ApiCall.insert project region
        { BackendService := d.attrs.backend_service
          IPAddress := d.attrs.ip_address
          IPProtocol := d.attrs.ip_protocol
          Description := d.attrs.description
          LoadBalancingScheme := d.attrs.load_balancing_scheme
          Name := d.attrs.name
          Network := nw.relativeLink
          NetworkTier := d.attrs.network_tier
          PortRange := d.attrs.port_range
          Ports := d.attrs.ports
          Subnetwork := sn.relativeLink
          Target := cfg.ConvertSelfLinkToV1 d.attrs.target
          SelfLink := "" }) := by
  have hfr := builtForwardingRule_eq cfg d nw sn
  unfold resourceComputeForwardingRuleCreate
  simp only [h1, h2, h3, h4]
  rw [hfr]
  split
  · rfl
  · split
    · rfl
    · rfl

/-- C2 witness: the insert request built from the concrete test
configuration. -/
theorem create_insert_request_fields_witness :
    (resourceComputeForwardingRuleCreate testConfig testD).calls.head? =
      some (ApiCall.insert "proj" "us-central1"
        { BackendService := "bs"
          IPAddress := "10.0.0.7"
          IPProtocol := "TCP"
          Description := "desc"
          LoadBalancingScheme := "EXTERNAL"
          Name := "my-rule"
          Network := "projects/proj/global/networks/net"
          NetworkTier := "PREMIUM"
          PortRange := "80-90"
          Ports := ["80", "443"]
          Subnetwork := "projects/proj/regions/us-central1/subnetworks/sub"
          Target := "v1:tpool"
          SelfLink := "" }) :=
  create_insert_request_fields testConfig testD
    ⟨"projects/proj/global/networks/net"⟩
    ⟨"projects/proj/regions/us-central1/subnetworks/sub"⟩
    "us-central1" "proj" rfl rfl rfl rfl

/-- C3: when region and project resolution and the remote `Get` all
succeed, the read handler returns nil and every local attribute equals the
corresponding field of the fetched forwarding rule (`backend_service` and
`self_link` converted to v1 self-links), with `project` and `region` set to
the resolved project and region. -/
theorem read_reconciles_remote_state (cfg : Config) (d : ResourceData)
    (region project : String) (frule : ForwardingRule)
    (h3 : cfg.getRegion d = .ok region)
    (h4 : cfg.getProject d = .ok project)
    (hget : cfg.ForwardingRulesGet project region d.id = .ok frule) :
    (resourceComputeForwardingRuleRead cfg d).error = none ∧
    (resourceComputeForwardingRuleRead cfg d).state.attrs =
      { name := frule.Name
        target := frule.Target
        backend_service := cfg.ConvertSelfLinkToV1 frule.BackendService
        description := frule.Description
        ip_address := frule.IPAddress
        ip_protocol := frule.IPProtocol
        load_balancing_scheme := frule.LoadBalancingScheme
        network := frule.Network
        network_tier := frule.NetworkTier
        port_range := frule.PortRange
        ports := frule.Ports
        project := project
        region := region
        self_link := cfg.ConvertSelfLinkToV1 frule.SelfLink
        subnetwork := frule.Subnetwork } := by
  unfold resourceComputeForwardingRuleRead
  simp only [h3, h4, hget]
  exact ⟨trivial, trivial⟩

/-- C3 witness: reading the concrete test rule reconciles every attribute. -/
theorem read_reconciles_remote_state_witness :
    (resourceComputeForwardingRuleRead testConfig testD).error = none ∧
    (resourceComputeForwardingRuleRead testConfig testD).state.attrs =
      { name := testFrule.Name
        target := testFrule.Target
        backend_service := testConfig.ConvertSelfLinkToV1 testFrule.BackendService
        description := testFrule.Description
        ip_address := testFrule.IPAddress
        ip_protocol := testFrule.IPProtocol
        load_balancing_scheme := testFrule.LoadBalancingScheme
        network := testFrule.Network
        network_tier := testFrule.NetworkTier
        port_range := testFrule.PortRange
        ports := testFrule.Ports
        project := "proj"
        region := "us-central1"
        self_link := testConfig.ConvertSelfLinkToV1 testFrule.SelfLink
        subnetwork := testFrule.Subnetwork } :=
  read_reconciles_remote_state testConfig testD "us-central1" "proj" testFrule
    rfl rfl rfl

/-- C4: when region and project resolve, the update handler issues a
`SetTarget` call carrying the newly configured target exactly when the
target attribute has changed, and when it is unchanged the handler issues
no mutating API call at all. -/
theorem update_set_target_iff_changed (cfg : Config) (d : ResourceData)
    (region project : String)
    (h3 : cfg.getRegion d = .ok region)
    (h4 : cfg.getProject d = .ok project) :
    (ApiCall.setTarget project region d.id ⟨d.attrs.target⟩ ∈
        (resourceComputeForwardingRuleUpdate cfg d).calls ↔
      d.hasChangeTarget = true) ∧
    (d.hasChangeTarget = false →
      ∀ c ∈ (resourceComputeForwardingRuleUpdate cfg d).calls,
        c.isMutating = false) := by
  unfold resourceComputeForwardingRuleUpdate
  simp only [h3, h4]
  cases hc : d.hasChangeTarget with
  | false =>
    simp only [hc]
    constructor
    · simp only [Bool.false_eq_true, iff_false]
      intro hmem
      obtain ⟨p, r, i, heq⟩ := read_calls_are_get cfg _ _ hmem
      exact ApiCall.noConfusion heq
    · intro _ c hmem
      obtain ⟨p, r, i, heq⟩ := read_calls_are_get cfg _ _ hmem
      rw [heq]
      rfl
  | true =>
    simp only [hc]
    constructor
    · simp only [iff_true]
      cases h5 : cfg.ForwardingRulesSetTarget project region d.id ⟨d.attrs.target⟩ with
      | error e => simp [h5]
      | ok op =>
        simp only [h5]
        cases h6 : cfg.computeOperationWait op project "Updating Forwarding Rule" with
        | error e => simp [h6]
        | ok u => simp [h6]
    · intro hfalse
      exact Bool.noConfusion hfalse

/-- C4 witness: with the test environment, the changed-target state issues
the `SetTarget` call and the unchanged-target state issues no mutating
call. -/
theorem update_set_target_iff_changed_witness :
    (ApiCall.setTarget "proj" "us-central1" testD.id ⟨testD.attrs.target⟩ ∈
        (resourceComputeForwardingRuleUpdate testConfig testD).calls ↔
      testD.hasChangeTarget = true) ∧
    (testD.hasChangeTarget = false →
      ∀ c ∈ (resourceComputeForwardingRuleUpdate testConfig testD).calls,
        c.isMutating = false) :=
  update_set_target_iff_changed testConfig testD "us-central1" "proj" rfl rfl

/-- C5: a fully successful create (insert accepted and wait succeeded)
finishes by invoking the read handler on the id-bearing state, and a fully
successful update (target unchanged, or set-target accepted and wait
succeeded) finishes by invoking the read handler, so in each case the
returned state and error are those of the reconciling read. -/
theorem create_update_finish_with_read (cfg : Config) (d : ResourceData) :
    (∀ nw sn region project op,
      cfg.ParseNetworkFieldValue d.attrs.network d = .ok nw →
      cfg.ParseSubnetworkFieldValue d.attrs.subnetwork d = .ok sn →
      cfg.getRegion d = .ok region →
      cfg.getProject d = .ok project →
      cfg.ForwardingRulesInsert project region (builtForwardingRule cfg d nw sn) = .ok op →
      cfg.computeSharedOperationWait op project "Creating Fowarding Rule" = .ok () →
      (resourceComputeForwardingRuleCreate cfg d).state =
        (resourceComputeForwardingRuleRead cfg { d with id := d.attrs.name }).state ∧
      (resourceComputeForwardingRuleCreate cfg d).error =
        (resourceComputeForwardingRuleRead cfg { d with id := d.attrs.name }).error) ∧
    (∀ region project,
      cfg.getRegion d = .ok region →
      cfg.getProject d = .ok project →
      d.hasChangeTarget = false →
      resourceComputeForwardingRuleUpdate cfg d =
        resourceComputeForwardingRuleRead cfg { d with partialMode := false }) ∧
    (∀ region project op,
      cfg.getRegion d = .ok region →
      cfg.getProject d = .ok project →
      d.hasChangeTarget = true →
      cfg.ForwardingRulesSetTarget project region d.id ⟨d.attrs.target⟩ = .ok op →
      cfg.computeOperationWait op project "Updating Forwarding Rule" = .ok () →
      (resourceComputeForwardingRuleUpdate cfg d).state =
        (resourceComputeForwardingRuleRead cfg
          { d with partialMode := false,
                   partialKeys := d.partialKeys ++ ["target"] }).state ∧
      (resourceComputeForwardingRuleUpdate cfg d).error =
        (resourceComputeForwardingRuleRead cfg
          { d with partialMode := false,
                   partialKeys := d.partialKeys ++ ["target"] }).error) := by
  refine ⟨?_, ?_, ?_⟩
  · intro nw sn region project op h1 h2 h3 h4 hIns hWait
    unfold resourceComputeForwardingRuleCreate
    simp only [h1, h2, h3, h4, hIns, hWait]
    exact ⟨rfl, rfl⟩
  · intro region project h3 h4 hch
    unfold resourceComputeForwardingRuleUpdate
    simp only [h3, h4, hch]
    rfl
  · intro region project op h3 h4 hch hSet hWait
    unfold resourceComputeForwardingRuleUpdate
    simp only [h3, h4, hch, hSet, hWait]
    exact ⟨rfl, rfl⟩

/-- C5 witness: the successful create and both successful update paths in
the concrete test environment end in the state computed by read. -/
theorem create_update_finish_with_read_witness :
    ((resourceComputeForwardingRuleCreate testConfig testD).state =
      (resourceComputeForwardingRuleRead testConfig
        { testD with id := testD.attrs.name }).state ∧
     (resourceComputeForwardingRuleCreate testConfig testD).error =
      (resourceComputeForwardingRuleRead testConfig
        { testD with id := testD.attrs.name }).error) ∧
    (resourceComputeForwardingRuleUpdate testConfig testDNoChange =
      resourceComputeForwardingRuleRead testConfig
        { testDNoChange with partialMode := false }) ∧
    ((resourceComputeForwardingRuleUpdate testConfig testD).state =
      (resourceComputeForwardingRuleRead testConfig
        { testD with partialMode := false,
                     partialKeys := testD.partialKeys ++ ["target"] }).state ∧
     (resourceComputeForwardingRuleUpdate testConfig testD).error =
      (resourceComputeForwardingRuleRead testConfig
        { testD with partialMode := false,
                     partialKeys := testD.partialKeys ++ ["target"] }).error) :=
  ⟨(create_update_finish_with_read testConfig testD).1
      ⟨"projects/proj/global/networks/net"⟩
      ⟨"projects/proj/regions/us-central1/subnetworks/sub"⟩
      "us-central1" "proj" ⟨1⟩ rfl rfl rfl rfl rfl rfl,
   (create_update_finish_with_read testConfig testDNoChange).2.1
      "us-central1" "proj" rfl rfl rfl,
   (create_update_finish_with_read testConfig testD).2.2
      "us-central1" "proj" ⟨2⟩ rfl rfl rfl rfl rfl⟩

/-- C6: once the `Insert` call succeeds, the create handler stores the
configured name as the resource id before waiting, so a failing operation
wait returns an error with the id already set; a failing `Insert` returns
an error with the state untouched. -/
theorem create_sets_id_before_wait (cfg : Config) (d : ResourceData)
    (nw sn : NetworkFieldValue) (region project : String)
    (h1 : cfg.ParseNetworkFieldValue d.attrs.network d = .ok nw)
    (h2 : cfg.ParseSubnetworkFieldValue d.attrs.subnetwork d = .ok sn)
    (h3 : cfg.getRegion d = .ok region)
    (h4 : cfg.getProject d = .ok project) :
    (∀ e,
      cfg.ForwardingRulesInsert project region (builtForwardingRule cfg d nw sn) = .error e →
      (resourceComputeForwardingRuleCreate cfg d).state = d ∧
      (resourceComputeForwardingRuleCreate cfg d).error =
        some ("Error creating ForwardingRule: " ++ e)) ∧
    (∀ op e,
      cfg.ForwardingRulesInsert project region (builtForwardingRule cfg d nw sn) = .ok op →
      cfg.computeSharedOperationWait op project "Creating Fowarding Rule" = .error e →
      (resourceComputeForwardingRuleCreate cfg d).state = { d with id := d.attrs.name } ∧
      (resourceComputeForwardingRuleCreate cfg d).error = some e) := by
  constructor
  · intro e hIns
    unfold resourceComputeForwardingRuleCreate
    simp only [h1, h2, h3, h4, hIns]
    exact ⟨by trivial, by trivial⟩
  · intro op e hIns hWait
    unfold resourceComputeForwardingRuleCreate
    simp only [h1, h2, h3, h4, hIns, hWait]
    exact ⟨by trivial, by trivial⟩

/-- C6 witness: with a failing insert the state is untouched; with a
failing wait the error is returned with the id already set to the
configured name. -/
theorem create_sets_id_before_wait_witness :
    ((resourceComputeForwardingRuleCreate testConfigInsertFails testD).state = testD ∧
     (resourceComputeForwardingRuleCreate testConfigInsertFails testD).error =
       some ("Error creating ForwardingRule: " ++ "insert failed")) ∧
    ((resourceComputeForwardingRuleCreate testConfigWaitFails testD).state =
       { testD with id := testD.attrs.name } ∧
     (resourceComputeForwardingRuleCreate testConfigWaitFails testD).error =
       some "wait failed") :=
  ⟨(create_sets_id_before_wait testConfigInsertFails testD
      ⟨"projects/proj/global/networks/net"⟩
      ⟨"projects/proj/regions/us-central1/subnetworks/sub"⟩
      "us-central1" "proj" rfl rfl rfl rfl).1 "insert failed" rfl,
   (create_sets_id_before_wait testConfigWaitFails testD
      ⟨"projects/proj/global/networks/net"⟩
      ⟨"projects/proj/regions/us-central1/subnetworks/sub"⟩
      "us-central1" "proj" rfl rfl rfl rfl).2 ⟨1⟩ "wait failed" rfl rfl⟩

/-- C7: the delete handler succeeds exactly when region and project resolve
and both the `Delete` call and the operation wait succeed; on success it
clears the resource id, and on every error path it returns the error with
the state (in particular the id) unchanged. -/
theorem delete_clears_id_iff_success (cfg : Config) (d : ResourceData) :
    ((resourceComputeForwardingRuleDelete cfg d).error = none ↔
      ∃ region project op,
        cfg.getRegion d = .ok region ∧
        cfg.getProject d = .ok project ∧
        cfg.ForwardingRulesDelete project region d.id = .ok op ∧
        cfg.computeOperationWait op project "Deleting Forwarding Rule" = .ok ()) ∧
    ((resourceComputeForwardingRuleDelete cfg d).error = none →
      (resourceComputeForwardingRuleDelete cfg d).state = { d with id := "" }) ∧
    (∀ e, (resourceComputeForwardingRuleDelete cfg d).error = some e →
      (resourceComputeForwardingRuleDelete cfg d).state = d) := by
  unfold resourceComputeForwardingRuleDelete
  cases h1 : cfg.getRegion d with
  | error e1 =>
    simp only [h1]
    exact ⟨by simp [h1], by simp, by simp⟩
  | ok region =>
    simp only [h1]
    cases h2 : cfg.getProject d with
    | error e2 =>
      simp only [h2]
      exact ⟨by simp [h1, h2], by simp, by simp⟩
    | ok project =>
      simp only [h2]
      cases h3 : cfg.ForwardingRulesDelete project region d.id with
      | error e3 =>
        simp only [h3]
        exact ⟨by simp [h1, h2, h3], by simp, by simp⟩
      | ok op =>
        simp only [h3]
        cases h4 : cfg.computeOperationWait op project "Deleting Forwarding Rule" with
        | error e4 =>
          simp only [h4]
          exact ⟨by simp [h1, h2, h3, h4], by simp, by simp⟩
        | ok u =>
          cases u
          simp only [h4]
          refine ⟨?_, ?_, ?_⟩
          · constructor
            · intro _
              exact ⟨region, project, op, rfl, rfl, h3, h4⟩
            · intro _
              trivial
          · intro _
            trivial
          · intro e he
            exact Option.noConfusion he

/-- C7 witness: in the successful test environment delete clears the id,
and with a failing `Delete` call the state is unchanged. -/
theorem delete_clears_id_iff_success_witness :
    (resourceComputeForwardingRuleDelete testConfig testD).state =
      { testD with id := "" } ∧
    (resourceComputeForwardingRuleDelete testConfigDeleteFails testD).state = testD :=
  ⟨(delete_clears_id_iff_success testConfig testD).2.1 rfl,
   (delete_clears_id_iff_success testConfigDeleteFails testD).2.2
      ("Error deleting ForwardingRule: " ++ "delete failed") rfl⟩

/-- C8: the schema declares `ports` as a set of strings with `MaxItems` 5,
so for every accepted configuration the ports slice that the create handler
sends in an `Insert` call has length at most 5. -/
theorem ports_bounded_by_schema (cfg : Config) (d : ResourceData)
    (p r : String) (frule : ForwardingRule)
    (hacc : acceptedPortsConfiguration d)
    (hmem : ApiCall.insert p r frule ∈
      (resourceComputeForwardingRuleCreate cfg d).calls) :
    List.lookup "ports" resourceComputeForwardingRule.Schema = some portsEntry ∧
    portsEntry.MaxItems = 5 ∧
    frule.Ports.length ≤ 5 := by
  refine ⟨by rfl, by rfl, ?_⟩
  have hacc5 : d.attrs.ports.length ≤ 5 := hacc
  unfold resourceComputeForwardingRuleCreate at hmem
  cases h1 : cfg.ParseNetworkFieldValue d.attrs.network d with
  | error e => simp only [h1] at hmem; simp at hmem
  | ok nw =>
  simp only [h1] at hmem
  cases h2 : cfg.ParseSubnetworkFieldValue d.attrs.subnetwork d with
  | error e => simp only [h2] at hmem; simp at hmem
  | ok sn =>
  simp only [h2] at hmem
  cases h3 : cfg.getRegion d with
  | error e => simp only [h3] at hmem; simp at hmem
  | ok region =>
  simp only [h3] at hmem
  cases h4 : cfg.getProject d with
  | error e => simp only [h4] at hmem; simp at hmem
  | ok project =>
  simp only [h4] at hmem
  cases h5 : cfg.ForwardingRulesInsert project region (builtForwardingRule cfg d nw sn) with
  | error e =>
    simp only [h5] at hmem
    simp at hmem
    obtain ⟨hp, hr, hf⟩ := hmem
    rw [hf, builtForwardingRule_eq]
    exact hacc5
  | ok op =>
    simp only [h5] at hmem
    cases h6 : cfg.computeSharedOperationWait op project "Creating Fowarding Rule" with
    | error e =>
      simp only [h6] at hmem
      simp at hmem
      obtain ⟨hp, hr, hf⟩ := hmem
      rw [hf, builtForwardingRule_eq]
      exact hacc5
    | ok u =>
      simp only [h6] at hmem
      simp at hmem
      rcases hmem with ⟨hp, hr, hf⟩ | hmem
      · rw [hf, builtForwardingRule_eq]
        exact hacc5
      · obtain ⟨p', r', i', heq⟩ := read_calls_are_get cfg _ _ hmem
        exact ApiCall.noConfusion heq

/-- C8 witness: the schema bound and the concrete insert request built from
the two-element test ports set. -/
theorem ports_bounded_by_schema_witness :
    List.lookup "ports" resourceComputeForwardingRule.Schema = some portsEntry ∧
    portsEntry.MaxItems = 5 ∧
    (builtForwardingRule testConfig testD
      ⟨"projects/proj/global/networks/net"⟩
      ⟨"projects/proj/regions/us-central1/subnetworks/sub"⟩).Ports.length ≤ 5 :=
  ports_bounded_by_schema testConfig testD "proj" "us-central1"
    (builtForwardingRule testConfig testD
      ⟨"projects/proj/global/networks/net"⟩
      ⟨"projects/proj/regions/us-central1/subnetworks/sub"⟩)
    (by decide) (List.mem_cons_self _ _)

end ForwardingRuleAdapter
